import Mathlib

/-!
Verification development for the packet engine: a shallow embedding of the
DHCPv4 REQUEST handler, the session host table and its probe/purge
scheduler, the session capture flag, and the two ICMPv6 send paths,
together with theorems checking the specification's statements against the
embedded code.

Go byte slices are modelled as `List Nat`, `net.IP` values as byte lists of
length 0 (nil), 4 or 16, times and durations as `Int` (nanoseconds), and
each Go function as a Lean function over these types.
-/

namespace PacketProof

/-- Go `net.IP`: a byte slice of length 0 (nil), 4, or 16. -/
abbrev GoIP := List Nat

/-- Go `v4InV6Prefix`: the 12-byte prefix of an IPv4-mapped IPv6 address. -/
def v4InV6Prefix : GoIP := [0, 0, 0, 0, 0, 0, 0, 0, 0, 0, 0xff, 0xff]

/-- Go `net.IPv4zero` (the 16-byte IPv4-mapped form produced by `net.IPv4`). -/
def IPv4zero : GoIP := v4InV6Prefix ++ [0, 0, 0, 0]

/-- Go `net.IPv4bcast` (the 16-byte IPv4-mapped form of 255.255.255.255). -/
def IPv4bcast : GoIP := v4InV6Prefix ++ [255, 255, 255, 255]

/-- Go `packet.EthBroadcast`: ff:ff:ff:ff:ff:ff. -/
def EthBroadcast : List Nat := [0xff, 0xff, 0xff, 0xff, 0xff, 0xff]

/-- Go `net.IP.To4`: the 4-byte form of an IPv4 address, nil otherwise. -/
def ipTo4 (ip : GoIP) : GoIP :=
  if ip.length = 4 then ip
  else if ip.length = 16 ∧ ip.take 12 = v4InV6Prefix then ip.drop 12
  else []

/-- Go `net.IP.Equal`: bytewise equality treating a 4-byte address and its
16-byte IPv4-mapped form as equal. -/
def ipEqual (x ip : GoIP) : Bool :=
  if x.length = ip.length then decide (x = ip)
  else if x.length = 4 ∧ ip.length = 16 then
    decide (ip.take 12 = v4InV6Prefix ∧ x = ip.drop 12)
  else if x.length = 16 ∧ ip.length = 4 then
    decide (x.take 12 = v4InV6Prefix ∧ ip = x.drop 12)
  else false

/-- Go `net.IP.IsLinkLocalUnicast`: 169.254.0.0/16 for IPv4, fe80::/10 for IPv6. -/
def ipIsLinkLocalUnicast (ip : GoIP) : Bool :=
  if ipTo4 ip ≠ [] then
    decide ((ipTo4 ip).headD 0 = 169 ∧ (ipTo4 ip).getD 1 0 = 254)
  else
    decide (ip.length = 16 ∧ ip.headD 0 = 0xfe ∧ Nat.land (ip.getD 1 0) 0xc0 = 0x80)

/-- Go `net.IP.IsLinkLocalMulticast`: 224.0.0.0/24 for IPv4, ff02::/16 for IPv6. -/
def ipIsLinkLocalMulticast (ip : GoIP) : Bool :=
  if ipTo4 ip ≠ [] then
    decide ((ipTo4 ip).headD 0 = 224 ∧ (ipTo4 ip).getD 1 0 = 0 ∧ (ipTo4 ip).getD 2 0 = 0)
  else
    decide (ip.length = 16 ∧ ip.headD 0 = 0xff ∧ Nat.land (ip.getD 1 0) 0x0f = 0x02)

/-- Go `net.IPNet.Contains` with `networkNumberAndMask` normalisation: the
network number and the probed address are reduced to 4-byte form when
possible, a 16-byte mask paired with a 4-byte network is truncated, and the
masked bytes are compared. -/
def lanContains (netIP mask ip : GoIP) : Bool :=
  let nn := if ipTo4 netIP ≠ [] then ipTo4 netIP else netIP
  let m := if mask.length = 16 ∧ nn.length = 4 then mask.drop 12 else mask
  let x := if ipTo4 ip ≠ [] then ipTo4 ip else ip
  if x.length = nn.length ∧ x.length = m.length then
    (List.zip (List.zip nn m) x).all fun p =>
      decide (Nat.land p.1.1 p.1.2 = Nat.land p.2 p.1.2)
  else false

/-- Go `packet.Addr`: a MAC, an IP and an optional port. -/
structure GoAddr where
  mac : List Nat := []
  ip : GoIP := []
  port : Nat := 0
deriving DecidableEq, Repr

/-- Go `packet.DHCP4ClientPort`. -/
def dhcp4ClientPort : Nat := 68

/-- Go `packet.DHCP4ServerPort`. -/
def dhcp4ServerPort : Nat := 67

end PacketProof

namespace PacketProof

/-! DHCPv4 model (package dhcp4, src/unnamed/part_000 and the handler file
inside src/dhcp4/packet_test.go). -/

/-- Lease states `StateFree`, `StateDiscover`, `StateAllocated`. -/
inductive LeaseState
  | free
  | discover
  | allocated
deriving DecidableEq, Repr

/-- Handler modes `ModePrimaryServer`, `ModeSecondaryServer`, `ModeSecondaryServerNice`. -/
inductive DHCPMode
  | primaryServer
  | secondaryServer
  | secondaryServerNice
deriving DecidableEq, Repr

/-- Hunt stages `StageNormal`, `StageHunt`, `StageRedirected`, `StageNoChange`. -/
inductive HuntStage
  | normal
  | hunt
  | redirected
  | noChange
deriving DecidableEq, Repr

/-- The `dhcpSubnet` configuration fields read by `handleRequest`. -/
structure DhcpSubnet where
  lanIP : GoIP
  lanMask : GoIP
  defaultGW : GoIP
  dhcpServer : GoIP
  duration : Int
  stage : HuntStage
deriving DecidableEq, Repr

/-- A DHCP `Lease`. The owning subnet reference is modelled by the flag
`onNet2` (true when the lease belongs to the netfilter subnet). -/
structure Lease where
  clientID : List Nat
  mac : List Nat
  ip : GoIP
  xid : List Nat
  ipOffer : GoIP
  state : LeaseState
  expiry : Int
  count : Nat := 0
  name : List Nat := []
  onNet2 : Bool := false
deriving DecidableEq, Repr

/-- The dhcp4 `Handler` fields read by `handleRequest`: the mode and the two
subnets (`net1` home, `net2` netfilter). -/
structure DhcpHandler where
  mode : DHCPMode
  net1 : DhcpSubnet
  net2 : DhcpSubnet
deriving DecidableEq, Repr

/-- The parsed DHCP options consulted by `handleRequest`, each the raw value
bytes when the option is present. -/
structure ReqOptions where
  requestedIP : Option (List Nat) := none
  serverID : Option (List Nat) := none
  hostName : Option (List Nat) := none
  clientID : Option (List Nat) := none
  paramReqList : Option (List Nat) := none
deriving DecidableEq, Repr

/-- The fixed-header fields of the incoming DHCP4 frame read by `handleRequest`. -/
structure DHCP4Req where
  chaddr : List Nat
  ciaddr : GoIP
  xid : List Nat
  broadcast : Bool
deriving DecidableEq, Repr

/-- DHCP message types used by the handler replies. -/
inductive MsgType
  | offer
  | ack
  | nak
deriving DecidableEq, Repr

/-- Modelled from the spec: `ReplyPacket` is not under src/. Per §4.1 and
§4.6 a server reply preserves the request's xid, chaddr and broadcast flag
and carries the message type, ServerIdentifier, yiaddr and lease duration;
the reply option set is determined by the configured options and the
client's parameter request list, recorded here as `prl`. -/
structure Reply where
  mt : MsgType
  serverID : GoIP
  yiaddr : GoIP
  duration : Int
  xid : List Nat
  chaddr : List Nat
  broadcast : Bool
  prl : Option (List Nat) := none
deriving DecidableEq, Repr

/-- Modelled from the spec: construction of a server reply from the request. -/
def replyPacket (p : DHCP4Req) (mt : MsgType) (serverID yiaddr : GoIP)
    (dur : Int) (prl : Option (List Nat)) : Reply :=
  { mt := mt
    serverID := serverID
    yiaddr := yiaddr
    duration := dur
    xid := p.xid
    chaddr := p.chaddr
    broadcast := p.broadcast
    prl := prl }

/-- Go `packet.Result`: the host-table update descriptor returned by handlers. -/
structure GoResult where
  update : Bool := false
  isRouter : Bool := false
  frameMAC : List Nat := []
  frameIP : GoIP := []
  huntStage : HuntStage := HuntStage.normal
  name : List Nat := []
deriving DecidableEq, Repr

/-- One dispatched `forceDecline` call (§4.7): a forged DECLINE impersonating
the client, sent to the gateway `serverID` for the disputed `ip`. -/
structure ForcedDecline where
  clientID : List Nat
  serverID : GoIP
  mac : List Nat
  ip : GoIP
  xid : List Nat
deriving DecidableEq, Repr

/-- The four REQUEST operations of `handleRequest`. -/
inductive ReqOperation
  | selecting
  | renewing
  | rebinding
  | rebooting
deriving DecidableEq, Repr

/-- Go `getClientID`: option 61 when present, else the CHAddr. -/
def getClientID (p : DHCP4Req) (opts : ReqOptions) : List Nat :=
  (opts.clientID).getD p.chaddr

/-- Resolution of an optional IP-valued DHCP option in `handleRequest`
(src/unnamed/part_000:50-59): the variable starts at `net.IPv4zero` and is
overwritten with the `To4` form of the option value when present. -/
def optionIP (o : Option (List Nat)) : GoIP :=
  match o with
  | some tmp => ipTo4 tmp
  | none => IPv4zero

/-- The REQUEST classification switch of `handleRequest`
(src/unnamed/part_000:83-104): given the resolved server-identifier option,
the resolved requested-IP option, the sender IP and the CIAddr, choose the
operation and the effective request IP (the CIAddr for renew and rebind). -/
def requestClassify (serverIP reqIP0 senderIP ciaddr : GoIP) : ReqOperation × GoIP :=
  if ipEqual serverIP IPv4zero = false then (ReqOperation.selecting, reqIP0)
  else if ipEqual reqIP0 IPv4zero = true ∧ ipEqual senderIP IPv4bcast = false then
    (ReqOperation.renewing, ciaddr)
  else if ipEqual reqIP0 IPv4zero = true ∧ ipEqual senderIP IPv4bcast = true then
    (ReqOperation.rebinding, ciaddr)
  else (ReqOperation.rebooting, reqIP0)

/-- Modelled from the spec: the dhcp4 lease-table `findOrCreate` is not under
src/. Per §3 the table holds exactly one lease per client-id and re-uses an
existing lease; a missing lease is created in state Free, owning the frame's
MAC, with the name recorded and the subnet chosen by the capture state
(§4.6 step 1). -/
def leaseFindOrCreate (table : List Lease) (cid mac name : List Nat)
    (captured : Bool) : Lease × List Lease :=
  match table.find? (fun l => decide (l.clientID = cid)) with
  | some l => (l, table)
  | none =>
    let l : Lease :=
      { clientID := cid
        mac := mac
        ip := []
        xid := []
        ipOffer := []
        state := LeaseState.free
        expiry := 0
        count := 0
        name := name
        onNet2 := captured }
    (l, table ++ [l])

/-- Replacement of a (mutated) lease in the table, keyed by client-id. -/
def leaseSet (table : List Lease) (l : Lease) : List Lease :=
  table.map fun e => if e.clientID = l.clientID then l else e

/-- The subnet a lease belongs to (`lease.subnet` in the source). -/
def leaseSubnet (h : DhcpHandler) (l : Lease) : DhcpSubnet :=
  if l.onNet2 then h.net2 else h.net1

/-- Go `h.mode == ModeSecondaryServer || (h.mode == ModeSecondaryServerNice && captured)`. -/
def dhcpAdversarial (mode : DHCPMode) (captured : Bool) : Bool :=
  decide (mode = DHCPMode.secondaryServer) ||
    (decide (mode = DHCPMode.secondaryServerNice) && captured)

/-- The outcome of `handleRequest`: the host-update descriptor, the optional
reply frame, the lease table after the call, and the `forceDecline` calls
dispatched (the source runs them on detached goroutines). -/
structure ReqOutcome where
  result : GoResult
  reply : Option Reply
  table : List Lease
  declines : List ForcedDecline
deriving DecidableEq, Repr

/-- The shared success tail of `handleRequest` (src/unnamed/part_000:248-279):
record the name, move a Discover lease's offer into the address, mark the
lease Allocated with a fresh expiry, and build the ACK from the lease's
subnet. -/
def handleRequestSuccess (h : DhcpHandler) (table1 : List Lease) (lease : Lease)
    (p : DHCP4Req) (opts : ReqOptions) (name : List Nat) (now : Int) : ReqOutcome :=
  let l1 := { lease with name := name }
  let l2 := if l1.state = LeaseState.discover then { l1 with ip := l1.ipOffer, ipOffer := [] } else l1
  let l3 := { l2 with
    state := LeaseState.allocated
    expiry := now + (leaseSubnet h l2).duration
    count := 0 }
  let l4 := match opts.hostName with
    | some tmp => { l3 with name := tmp }
    | none => l3
  let ret := replyPacket p MsgType.ack (leaseSubnet h l4).dhcpServer l4.ip
    (leaseSubnet h l4).duration opts.paramReqList
  { result := {
      update := true
      isRouter := true
      frameMAC := l4.mac
      frameIP := l4.ip
      huntStage := (leaseSubnet h l4).stage
      name := l4.name }
    reply := some ret
    table := leaseSet table1 l4
    declines := [] }

/-- Go `Handler.handleRequest` (src/unnamed/part_000:48-280). `hostPresent`
stands for `host != nil` and `captured` for `h.session.IsCaptured(p.CHAddr())`;
`senderIP` is the IPv4 source of the carrying packet and `now` the current
time. The nested early-return of the Free-lease adversarial case is flattened
into a conjunction; a non-adversarial Free lease falls through to the
Allocated check exactly as in the source. -/
def handleRequest (h : DhcpHandler) (table : List Lease) (hostPresent captured : Bool)
    (p : DHCP4Req) (opts : ReqOptions) (senderIP : GoIP) (now : Int) : ReqOutcome :=
  let clientID := getClientID p opts
  let reqIP0 := optionIP opts.requestedIP
  let serverIP := optionIP opts.serverID
  let name := (opts.hostName).getD []
  let result0 : GoResult :=
    if hostPresent = true ∧ name ≠ [] then { update := true, name := name } else {}
  let co := requestClassify serverIP reqIP0 senderIP p.ciaddr
  let reqIP := co.2
  if ipEqual reqIP IPv4zero = true then
    { result := result0, reply := none, table := table, declines := [] }
  else
    let subnet := if captured = true then h.net2 else h.net1
    let fc := leaseFindOrCreate table clientID p.chaddr name captured
    let lease := fc.1
    let table1 := fc.2
    match co.1 with
    | ReqOperation.selecting =>
      if ipEqual serverIP subnet.dhcpServer = false then
        let lease1 := if lease.state ≠ LeaseState.discover then
          { lease with state := LeaseState.free, ip := [] } else lease
        let result1 := { result0 with
          update := true
          isRouter := true
          frameMAC := p.chaddr
          frameIP := reqIP
          name := name
          huntStage := HuntStage.noChange }
        let table2 := leaseSet table1 lease1
        if dhcpAdversarial h.mode captured = true then
          { result := result1
            reply := some (replyPacket p MsgType.nak subnet.dhcpServer IPv4zero 0 none)
            table := table2
            declines := [] }
        else
          { result := result1, reply := none, table := table2, declines := [] }
      else if lease.mac ≠ p.chaddr ∨
          (lease.state = LeaseState.discover ∧
            (lease.xid ≠ p.xid ∨ ipEqual lease.ipOffer reqIP = false)) ∨
          (lease.state = LeaseState.allocated ∧ ipEqual lease.ip reqIP = false) then
        { result := {}
          reply := some (replyPacket p MsgType.nak subnet.dhcpServer IPv4zero 0 none)
          table := table1
          declines := [] }
      else handleRequestSuccess h table1 lease p opts name now
    | ReqOperation.renewing =>
      if lease.state ≠ LeaseState.allocated ∨ ipEqual lease.ip reqIP = false ∨
          lease.mac ≠ p.chaddr ∨ lease.expiry < now then
        { result := {}
          reply := some (replyPacket p MsgType.nak subnet.dhcpServer IPv4zero 0 none)
          table := table1
          declines := [] }
      else handleRequestSuccess h table1 lease p opts name now
    | ReqOperation.rebooting | ReqOperation.rebinding =>
      let result1 := { result0 with
        update := true
        isRouter := true
        frameMAC := p.chaddr
        frameIP := reqIP
        name := name
        huntStage := HuntStage.noChange }
      let adv := dhcpAdversarial h.mode captured
      let decl : ForcedDecline :=
        { clientID := clientID
          serverID := h.net1.defaultGW
          mac := p.chaddr
          ip := reqIP
          xid := p.xid }
      if lease.state = LeaseState.free ∧ adv = true then
        { result := result1
          reply := some (replyPacket p MsgType.nak h.net1.defaultGW IPv4zero 0 none)
          table := table1
          declines := [decl] }
      else if lease.state ≠ LeaseState.allocated ∨ ipEqual lease.ip reqIP = false ∨
          lease.mac ≠ p.chaddr ∨ lanContains subnet.lanIP subnet.lanMask lease.ip = false then
        { result := result1
          reply := some (replyPacket p MsgType.nak subnet.dhcpServer IPv4zero 0 none)
          table := table1
          declines := if adv = true then [decl] else [] }
      else handleRequestSuccess h table1 lease p opts name now

/-- The reply destination selection of dhcp4 `ProcessPacket`
(ProcessPacket, src/dhcp4/packet_test.go:475-494): broadcast when the sender
IP is zero or the Broadcast flag is set, else unicast to the client. -/
def dhcp4ReplyDst (senderIP : GoIP) (broadcastFlag : Bool) (etherSrcMAC : List Nat) : GoAddr :=
  if ipEqual senderIP IPv4zero = true ∨ broadcastFlag = true then
    { mac := EthBroadcast, ip := IPv4bcast, port := dhcp4ClientPort }
  else
    { mac := etherSrcMAC, ip := senderIP, port := dhcp4ClientPort }

/-- The reply source address of dhcp4 `ProcessPacket`: always the host MAC
and host IPv4 at the DHCP server port. -/
def dhcp4ReplySrc (hostMAC : List Nat) (hostIP4 : GoIP) : GoAddr :=
  { mac := hostMAC, ip := hostIP4, port := dhcp4ServerPort }

end PacketProof

namespace PacketProof

/-! Session model (package packet, src/unnamed/part_003): host records, the
purge scan, the probe goroutine body, the NewSession deadline validation and
pinned host entries, and Session.Capture. -/

/-- The fields of a `Host` (with its owning MACEntry flags) read and written
by the code under verification. -/
structure PHost where
  mac : List Nat
  ip : GoIP
  online : Bool
  macOnline : Bool := false
  isRouter : Bool := false
  lastSeen : Int
deriving DecidableEq, Repr

/-- The three lists accumulated by the scan loop of `Session.purge`. -/
structure PurgeScan where
  purge : List GoIP
  probe : List GoAddr
  offline : List PHost
deriving DecidableEq, Repr

/-- The table scan of `Session.purge` (src/unnamed/part_003:332-363): offline
hosts stale past the purge deadline are queued for deletion and skip the
other checks; online hosts stale past the probe deadline are queued for
probing, and those stale past the offline deadline for the offline
transition. -/
def purgeScan (now probeDeadline offlineDeadline purgeDeadline : Int)
    (hosts : List PHost) : PurgeScan :=
  let probeCutoff := now - probeDeadline
  let offlineCutoff := now - offlineDeadline
  let deleteCutoff := now - purgeDeadline
  hosts.foldl
    (fun acc e =>
      if e.online = false ∧ e.lastSeen < deleteCutoff then
        { acc with purge := acc.purge ++ [e.ip] }
      else
        let acc1 := if e.online = true ∧ e.lastSeen < probeCutoff then
          { acc with probe := acc.probe ++ [{ mac := e.mac, ip := e.ip }] } else acc
        if e.online = true ∧ e.lastSeen < offlineCutoff then
          { acc1 with offline := acc1.offline ++ [e] }
        else acc1)
    { purge := [], probe := [], offline := [] }

/-- Modelled from the spec: `IPv6SolicitedNode` is not under src/; §4.4 sends
the neighbour solicitation to the solicited-node multicast of the target,
ff02::1:ffXX:XXXX built from the low three bytes of the target. -/
def solicitedNode (ip : GoIP) : GoIP :=
  [0xff, 0x02, 0, 0, 0, 0, 0, 0, 0, 0, 0, 0x01, 0xff] ++ ip.drop 13

/-- One probe emitted by the probe goroutine of `Session.purge`. The echo
identifier (derived from the wall clock in the source) is not recorded. -/
inductive ProbeSent
  | arpRequest (ip : GoIP)
  | neighbourSolicitation (srcMAC : List Nat) (srcIP : GoIP) (dst target : GoIP)
  | echoRequest (srcMAC : List Nat) (srcIP : GoIP) (dst : GoAddr)
deriving DecidableEq, Repr

/-- The probe goroutine body of `Session.purge` (src/unnamed/part_003:366-392),
returning the probes actually sent, in order. The test `HostLLA.IP != nil`
guarding the log-and-continue branch and the `return` statement after a
neighbour solicitation are reproduced exactly as written in the source. -/
def probeLoop (hostMAC : List Nat) (hostLLA : GoIP) : List GoAddr → List ProbeSent
  | [] => []
  | addr :: rest =>
    if ipTo4 addr.ip ≠ [] then
      ProbeSent.arpRequest addr.ip :: probeLoop hostMAC hostLLA rest
    else if hostLLA ≠ [] then
      probeLoop hostMAC hostLLA rest
    else if ipIsLinkLocalUnicast addr.ip = true then
      [ProbeSent.neighbourSolicitation hostMAC hostLLA (solicitedNode addr.ip) addr.ip]
    else
      ProbeSent.echoRequest hostMAC hostLLA { mac := addr.mac, ip := addr.ip }
        :: probeLoop hostMAC hostLLA rest

/-- Go `time.Hour * 24 * 365` in nanoseconds, the pin applied to the host's
own record in `Config.NewSession`. -/
def yearNanos : Int := 365 * 24 * 60 * 60 * 1000000000

/-- Go `time.Minute` in nanoseconds. -/
def minuteNanos : Int := 60 * 1000000000

/-- Go `time.Hour` in nanoseconds. -/
def hourNanos : Int := 60 * minuteNanos

/-- Modelled from the spec: `Session.findOrCreateHostWithLock` is not under
src/. Per §4.2 the table copies the addr and creates the host record; a new
record starts offline and its `LastSeen` is the creation instant (§4.3 sets
`LastSeen = now` on traffic). -/
def findOrCreateHost (a : GoAddr) (now : Int) : PHost :=
  { mac := a.mac, ip := a.ip, online := false, macOnline := false,
    isRouter := false, lastSeen := now }

/-- The manual host-record creation at the end of `Config.NewSession`
(src/unnamed/part_003:202-213): the first component is the record for the
interface's own IPv4 address, the second the record for the default
gateway's IPv4 address, with exactly the field assignments of the source. -/
def newSessionHosts (now : Int) (hostAddr4 routerAddr4 : GoAddr) : PHost × PHost :=
  let host1 := findOrCreateHost hostAddr4 now
  let host1 := { host1 with lastSeen := now + yearNanos, online := true, macOnline := true }
  let host2 := findOrCreateHost routerAddr4 now
  let host2 := { host2 with isRouter := true, online := true, macOnline := true }
  (host1, host2)

/-- Which deadline check of `Config.NewSession` failed (each failure wraps
`ErrInvalidParam`). -/
inductive SessionParamErr
  | probeDeadline
  | offlineDeadline
  | purgeDeadline
deriving DecidableEq, Repr

/-- The deadline validation of `Config.NewSession`
(src/unnamed/part_003:150-158), in source order. -/
def newSessionValidate (probe offline purge : Int) : Option SessionParamErr :=
  if probe < 0 ∨ probe > 30 * minuteNanos then some SessionParamErr.probeDeadline
  else if offline < 0 ∨ offline > 60 * minuteNanos ∨ offline < probe then
    some SessionParamErr.offlineDeadline
  else if purge < 0 ∨ purge > 24 * hourNanos then some SessionParamErr.purgeDeadline
  else none

/-- The `MACEntry` fields read and written by `Session.Capture`. -/
structure MacEnt where
  mac : List Nat
  captured : Bool := false
  isRouter : Bool := false
deriving DecidableEq, Repr

/-- Modelled from the spec: `MACTable.findOrCreate` is not under src/; it
returns the existing entry for the MAC or inserts a fresh one whose flags
default to false (§3 MACEntry). -/
def macFindOrCreate (t : List MacEnt) (mac : List Nat) : MacEnt × List MacEnt :=
  match t.find? (fun e => decide (e.mac = mac)) with
  | some e => (e, t)
  | none => ({ mac := mac }, t ++ [{ mac := mac }])

/-- Lookup of a MAC entry in the table. -/
def macLookup (t : List MacEnt) (mac : List Nat) : Option MacEnt :=
  t.find? (fun e => decide (e.mac = mac))

/-- The error returned by `Session.Capture` for a router MAC (`ErrIsRouter`). -/
inductive CaptureErr
  | isRouter
deriving DecidableEq, Repr

/-- Go `Session.Capture` (src/unnamed/part_003:470-484): find or create the
entry; an already-captured entry returns nil unchanged; a router entry that
is not captured returns `ErrIsRouter`; otherwise the entry's Captured flag
is set (modelled by rewriting the entry in the table) and nil is returned. -/
def sessionCapture (t : List MacEnt) (mac : List Nat) : Option CaptureErr × List MacEnt :=
  let fc := macFindOrCreate t mac
  let e := fc.1
  let t1 := fc.2
  if e.captured = true then (none, t1)
  else if e.isRouter = true then (some CaptureErr.isRouter, t1)
  else (none, t1.map fun x => if x.mac = e.mac then { x with captured := true } else x)

end PacketProof

namespace PacketProof

/-! ICMPv6 send paths: `Handler6.sendPacket` in package icmp
(src/icmp/icmp6.go:178-217) and `ICMP6Handler.sendPacket` in package icmp6
(src/icmp/packet_test.go:172-210). -/

/-- The fields of the Ethernet and IPv6 frame written by the two
`sendPacket` implementations before the write to the connection. The ICMPv6
checksum is computed by both from the same pseudo header (srcIP, dstIP,
payload) and is therefore determined by the recorded fields. -/
structure Icmp6Frame where
  srcMAC : List Nat
  dstMAC : List Nat
  hopLimit : Nat
  srcIP : GoIP
  dstIP : GoIP
  payload : List Nat
deriving DecidableEq, Repr

/-- Package icmp `Handler6.sendPacket`: hop limit 255 for a link-local
unicast or link-local multicast destination, else 64; the Ethernet source is
the session host MAC. -/
def icmpSendPacketFrame (hostMAC : List Nat) (srcAddr dstAddr : GoAddr)
    (b : List Nat) : Icmp6Frame :=
  let hopLimit := if ipIsLinkLocalUnicast dstAddr.ip = true ∨
      ipIsLinkLocalMulticast dstAddr.ip = true then 255 else 64
  { srcMAC := hostMAC, dstMAC := dstAddr.mac, hopLimit := hopLimit,
    srcIP := srcAddr.ip, dstIP := dstAddr.ip, payload := b }

/-- Package icmp6 `ICMP6Handler.sendPacket`: hop limit 1 for a link-local
unicast or link-local multicast destination, else 64; the Ethernet source is
taken from `srcAddr.MAC`. -/
def icmp6SendPacketFrame (srcAddr dstAddr : GoAddr) (b : List Nat) : Icmp6Frame :=
  let hopLimit := if ipIsLinkLocalUnicast dstAddr.ip = true ∨
      ipIsLinkLocalMulticast dstAddr.ip = true then 1 else 64
  { srcMAC := srcAddr.mac, dstMAC := dstAddr.mac, hopLimit := hopLimit,
    srcIP := srcAddr.ip, dstIP := dstAddr.ip, payload := b }

end PacketProof

namespace PacketProof

/-! Predicates transcribing the specification's words, used to compare the
spec's statements with the embedded code, and concrete fixtures. -/

/-- The spec's classification row for Selecting (RFC 2131 table of §4.6):
ServerID set, RequestedIP set, CIAddr zero, sender IP zero. -/
abbrev specSelectingCond (opts : ReqOptions) (p : DHCP4Req) (senderIP : GoIP) : Prop :=
  opts.serverID.isSome = true ∧ opts.requestedIP.isSome = true ∧
  ipEqual p.ciaddr IPv4zero = true ∧ ipEqual senderIP IPv4zero = true

/-- The spec's ACK condition for a Selecting REQUEST addressed to this
server: the lease MAC matches and the lease is either in Discover with
matching XID and offer, or in Allocated with matching address. -/
abbrev specC2AckCond (lease : Lease) (p : DHCP4Req) (reqIP : GoIP) : Prop :=
  lease.mac = p.chaddr ∧
  ((lease.state = LeaseState.discover ∧ lease.xid = p.xid ∧
      ipEqual lease.ipOffer reqIP = true) ∨
   (lease.state = LeaseState.allocated ∧ ipEqual lease.ip reqIP = true))

/-- The spec's duration constraints (§6): probe ≤ offline ≤ purge,
probe in (0, 30 min], offline in (probe, 60 min], purge in (offline, 24 h]. -/
abbrev specC7Constraints (probe offline purge : Int) : Prop :=
  probe ≤ offline ∧ offline ≤ purge ∧
  0 < probe ∧ probe ≤ 30 * minuteNanos ∧
  probe < offline ∧ offline ≤ 60 * minuteNanos ∧
  offline < purge ∧ purge ≤ 24 * hourNanos

/-- Fixture: the home subnet of scenario S1 (LAN 192.168.0.0/24, router
192.168.0.11, our DHCP server 192.168.0.129, 4 h leases). -/
def subnetHomeEx : DhcpSubnet :=
  { lanIP := [192, 168, 0, 0]
    lanMask := [255, 255, 255, 0]
    defaultGW := [192, 168, 0, 11]
    dhcpServer := [192, 168, 0, 129]
    duration := 14400000000000
    stage := HuntStage.normal }

/-- Fixture: the netfilter subnet of scenario S1 (192.168.1.0/24, gateway
192.168.1.129). -/
def subnetNetfilterEx : DhcpSubnet :=
  { lanIP := [192, 168, 1, 0]
    lanMask := [255, 255, 255, 0]
    defaultGW := [192, 168, 1, 129]
    dhcpServer := [192, 168, 0, 129]
    duration := 14400000000000
    stage := HuntStage.redirected }

/-- Fixture: a handler in SecondaryServerNice mode over the two subnets. -/
def handlerEx : DhcpHandler :=
  { mode := DHCPMode.secondaryServerNice, net1 := subnetHomeEx, net2 := subnetNetfilterEx }

/-- Fixture: a Free lease whose MAC matches the client 00:02:03:04:05:01. -/
def leaseFreeEx : Lease :=
  { clientID := [0, 2, 3, 4, 5, 1]
    mac := [0, 2, 3, 4, 5, 1]
    ip := []
    xid := []
    ipOffer := []
    state := LeaseState.free
    expiry := 0 }

/-- Fixture: a link-local IPv6 address fe80::1 (the host's own LLA). -/
def llaHostEx : GoIP := [0xfe, 0x80, 0, 0, 0, 0, 0, 0, 0, 0, 0, 0, 0, 0, 0, 1]

/-- Fixture: a link-local IPv6 address fe80::2 (a neighbour). -/
def llaPeerEx : GoIP := [0xfe, 0x80, 0, 0, 0, 0, 0, 0, 0, 0, 0, 0, 0, 0, 0, 2]

/-- Fixture: a global IPv6 address 2001:db8::1. -/
def guaEx : GoIP := [0x20, 0x01, 0x0d, 0xb8, 0, 0, 0, 0, 0, 0, 0, 0, 0, 0, 0, 1]

/-- Fixture: a second global IPv6 address 2001:db8::2. -/
def guaEx2 : GoIP := [0x20, 0x01, 0x0d, 0xb8, 0, 0, 0, 0, 0, 0, 0, 0, 0, 0, 0, 2]

end PacketProof

namespace PacketProof

/-! Theorems for claims C1 and C4 through C8. -/

/-- C1 (amended): the classification switch of handleRequest depends only on
whether the resolved ServerIdentifier option is zero, whether the resolved
RequestedIP option is zero, and whether the sender IP is 255.255.255.255:
selecting iff the ServerIdentifier resolves non-zero; renewing iff it is
zero, the RequestedIP resolves zero and the sender is not the broadcast
address; rebinding iff it is zero, the RequestedIP resolves zero and the
sender is the broadcast address; rebooting iff it is zero and the
RequestedIP resolves non-zero. CIAddr never influences the choice. -/
theorem c1_request_classification (serverIPOpt reqIPOpt : Option (List Nat))
    (senderIP ciaddr : GoIP) :
    ((requestClassify (optionIP serverIPOpt) (optionIP reqIPOpt) senderIP ciaddr).1 =
        ReqOperation.selecting ↔ ipEqual (optionIP serverIPOpt) IPv4zero = false) ∧
    ((requestClassify (optionIP serverIPOpt) (optionIP reqIPOpt) senderIP ciaddr).1 =
        ReqOperation.renewing ↔
      ipEqual (optionIP serverIPOpt) IPv4zero = true ∧
      ipEqual (optionIP reqIPOpt) IPv4zero = true ∧
      ipEqual senderIP IPv4bcast = false) ∧
    ((requestClassify (optionIP serverIPOpt) (optionIP reqIPOpt) senderIP ciaddr).1 =
        ReqOperation.rebinding ↔
      ipEqual (optionIP serverIPOpt) IPv4zero = true ∧
      ipEqual (optionIP reqIPOpt) IPv4zero = true ∧
      ipEqual senderIP IPv4bcast = true) ∧
    ((requestClassify (optionIP serverIPOpt) (optionIP reqIPOpt) senderIP ciaddr).1 =
        ReqOperation.rebooting ↔
      ipEqual (optionIP serverIPOpt) IPv4zero = true ∧
      ipEqual (optionIP reqIPOpt) IPv4zero = false) := by
  cases hs : ipEqual (optionIP serverIPOpt) IPv4zero <;>
    cases hr : ipEqual (optionIP reqIPOpt) IPv4zero <;>
      cases hb : ipEqual senderIP IPv4bcast <;>
        simp [requestClassify, hs, hr, hb]

/-- C1 (counterexample): a REQUEST carrying a ServerIdentifier but no
RequestedIP option, with CIAddr set and a unicast sender, is classified
Selecting by the code although the spec table's Selecting row (ServerID set,
RequestedIP set, CIAddr zero, sender zero) does not hold. -/
theorem c1_classification_counterexample :
    (requestClassify (optionIP (some [192, 168, 0, 129])) (optionIP none)
        [192, 168, 0, 50] [192, 168, 0, 50]).1 = ReqOperation.selecting ∧
    ¬ specSelectingCond { serverID := some [192, 168, 0, 129] }
        { chaddr := [0, 2, 3, 4, 5, 1], ciaddr := [192, 168, 0, 50],
          xid := [1, 1, 1, 1], broadcast := false }
        [192, 168, 0, 50] := by decide

/-- C4: the probe goroutine of Session.purge fails to probe IPv6 hosts.
With the host's own link-local address present (the normal case), an online
and stale IPv6 link-local neighbour receives no probe at all; with the host
link-local address nil, the neighbour solicitation is sent with a nil source
and the goroutine then returns, dropping the ARP probe of every remaining
host in the list; a lone IPv4 host is probed correctly. -/
theorem c4_probe_divergence :
    probeLoop [1, 2, 3, 4, 5, 6] llaHostEx [{ mac := [7, 7, 7, 7, 7, 7], ip := llaPeerEx }] = [] ∧
    probeLoop [1, 2, 3, 4, 5, 6] llaHostEx [{ mac := [8, 8, 8, 8, 8, 8], ip := guaEx }] = [] ∧
    probeLoop [1, 2, 3, 4, 5, 6] []
        [{ mac := [7, 7, 7, 7, 7, 7], ip := llaPeerEx },
         { mac := [8, 8, 8, 8, 8, 8], ip := [192, 168, 0, 200] }] =
      [ProbeSent.neighbourSolicitation [1, 2, 3, 4, 5, 6] [] (solicitedNode llaPeerEx) llaPeerEx] ∧
    probeLoop [1, 2, 3, 4, 5, 6] llaHostEx [{ mac := [8, 8, 8, 8, 8, 8], ip := [192, 168, 0, 200] }] =
      [ProbeSent.arpRequest [192, 168, 0, 200]] ∧
    (purgeScan 300000000000 120000000000 300000000000 3660000000000
        [{ mac := [7, 7, 7, 7, 7, 7], ip := llaPeerEx, online := true, lastSeen := 0 }]).probe =
      [{ mac := [7, 7, 7, 7, 7, 7], ip := llaPeerEx }] := by decide

/-- C5 (amended): after NewSession the interface's own record and the
gateway record both exist online with their MAC entries online; the own
record's LastSeen is pinned one year ahead, so the minute scheduler never
probes, offlines or purges it before that, while the gateway record is
created with LastSeen at the creation instant and additionally flagged
IsRouter. -/
theorem c5_pinned_hosts (now t probeD offlineD purgeD : Int) (a b : GoAddr)
    (ht : t ≤ now + yearNanos) (hp : 0 ≤ probeD) (ho : 0 ≤ offlineD) :
    ((newSessionHosts now a b).1.online = true ∧
      (newSessionHosts now a b).1.macOnline = true ∧
      (newSessionHosts now a b).1.lastSeen = now + yearNanos) ∧
    ((newSessionHosts now a b).2.online = true ∧
      (newSessionHosts now a b).2.macOnline = true ∧
      (newSessionHosts now a b).2.isRouter = true ∧
      (newSessionHosts now a b).2.lastSeen = now) ∧
    purgeScan t probeD offlineD purgeD [(newSessionHosts now a b).1] =
      { purge := [], probe := [], offline := [] } := by
  refine ⟨⟨rfl, rfl, rfl⟩, ⟨rfl, rfl, rfl, rfl⟩, ?_⟩
  have h1 : ¬ (now + yearNanos < t - probeD) := by omega
  have h2 : ¬ (now + yearNanos < t - offlineD) := by omega
  simp [purgeScan, newSessionHosts, findOrCreateHost, h1, h2]

/-- C5 (witness): the theorem applied at time zero with zero deadlines. -/
theorem c5_pinned_hosts_witness :
    ((newSessionHosts 0 { mac := [1], ip := [2] } { mac := [3], ip := [4] }).2.lastSeen = 0) ∧
    purgeScan 0 0 0 0 [(newSessionHosts 0 { mac := [1], ip := [2] } { mac := [3], ip := [4] }).1] =
      { purge := [], probe := [], offline := [] } := by
  have h := c5_pinned_hosts 0 0 0 0 0 { mac := [1], ip := [2] } { mac := [3], ip := [4] }
    (by decide) le_rfl le_rfl
  exact ⟨h.2.1.2.2.2, h.2.2⟩

/-- C5 (counterexample): the gateway record is created with LastSeen at the
creation instant, not one year in the future as the claim states. -/
theorem c5_router_not_pinned :
    (newSessionHosts 0 { mac := [1], ip := [2] } { mac := [3], ip := [4] }).2.lastSeen ≠
      0 + yearNanos := by decide

/-- C6: the reply to a processed DHCP message goes to
ff:ff:ff:ff:ff:ff / 255.255.255.255 port 68 when the sender IP is zero or
the frame's Broadcast flag is set, and otherwise to the sender's MAC and IP
at port 68; the source is always the host MAC and host IPv4 at port 67. -/
theorem c6_reply_transport (senderIP : GoIP) (brd : Bool) (etherSrcMAC hostMAC : List Nat)
    (hostIP4 : GoIP) :
    dhcp4ReplyDst senderIP brd etherSrcMAC =
      (if ipEqual senderIP IPv4zero = true ∨ brd = true then
        { mac := EthBroadcast, ip := IPv4bcast, port := dhcp4ClientPort }
      else
        { mac := etherSrcMAC, ip := senderIP, port := dhcp4ClientPort }) ∧
    (dhcp4ReplyDst senderIP brd etherSrcMAC).port = 68 ∧
    dhcp4ReplySrc hostMAC hostIP4 = { mac := hostMAC, ip := hostIP4, port := 67 } := by
  refine ⟨rfl, ?_, rfl⟩
  by_cases h : ipEqual senderIP IPv4zero = true ∨ brd = true <;>
    simp [dhcp4ReplyDst, h, dhcp4ClientPort]

/-- C7 (amended): NewSession rejects a configuration with an InvalidParam
error exactly when probe is negative or above 30 minutes, offline is
negative, above 60 minutes or below probe, or purge is negative or above
24 hours. In particular probe = 0 and purge < offline are accepted. -/
theorem c7_deadline_validation (probe offline purge : Int) :
    newSessionValidate probe offline purge = none ↔
      (0 ≤ probe ∧ probe ≤ 30 * minuteNanos ∧
       0 ≤ offline ∧ offline ≤ 60 * minuteNanos ∧ probe ≤ offline ∧
       0 ≤ purge ∧ purge ≤ 24 * hourNanos) := by
  unfold newSessionValidate
  by_cases h1 : probe < 0 ∨ probe > 30 * minuteNanos
  · simp only [h1, if_true]
    constructor
    · intro h; cases h
    · intro h; omega
  · by_cases h2 : offline < 0 ∨ offline > 60 * minuteNanos ∨ offline < probe
    · simp only [h1, h2, if_false, if_true]
      constructor
      · intro h; cases h
      · intro h; omega
    · by_cases h3 : purge < 0 ∨ purge > 24 * hourNanos
      · simp only [h1, h2, h3, if_false, if_true]
        constructor
        · intro h; cases h
        · intro h; omega
      · simp only [h1, h2, h3, if_false]
        constructor
        · intro _; omega
        · intro _; trivial

/-- C7 (counterexample): a zero probe deadline and a purge deadline smaller
than the offline deadline are both accepted by NewSession, although the
spec's constraints reject them. -/
theorem c7_validation_counterexample :
    newSessionValidate 0 0 0 = none ∧ ¬ specC7Constraints 0 0 0 ∧
    newSessionValidate minuteNanos (5 * minuteNanos) (2 * minuteNanos) = none ∧
    ¬ specC7Constraints minuteNanos (5 * minuteNanos) (2 * minuteNanos) := by decide

/-- C8 (amended): with the caller's source MAC equal to the session host MAC
(as every caller in the source passes), the two sendPacket implementations
build the same frame except for the hop limit, which is 255 in package icmp
and 1 in package icmp6 for a link-local unicast or multicast destination,
and 64 in both otherwise. Without that hypothesis the frames also differ in
the Ethernet source MAC (see the counterexample). -/
theorem c8_sendpacket_hoplimit (hostMAC : List Nat) (srcAddr dstAddr : GoAddr)
    (b : List Nat) (hmac : srcAddr.mac = hostMAC) :
    icmpSendPacketFrame hostMAC srcAddr dstAddr b =
      { icmp6SendPacketFrame srcAddr dstAddr b with
        hopLimit := if ipIsLinkLocalUnicast dstAddr.ip = true ∨
          ipIsLinkLocalMulticast dstAddr.ip = true then 255 else 64 } ∧
    (icmp6SendPacketFrame srcAddr dstAddr b).hopLimit =
      (if ipIsLinkLocalUnicast dstAddr.ip = true ∨
        ipIsLinkLocalMulticast dstAddr.ip = true then 1 else 64) := by
  subst hmac
  constructor <;> simp [icmpSendPacketFrame, icmp6SendPacketFrame]

/-- C8 (witness): the theorem applied to a link-local destination with the
source MAC equal to the host MAC: hop limits 255 and 1. -/
theorem c8_sendpacket_hoplimit_witness :
    (icmpSendPacketFrame [1, 2, 3, 4, 5, 6] { mac := [1, 2, 3, 4, 5, 6], ip := llaHostEx }
        { mac := [9, 9, 9, 9, 9, 9], ip := llaPeerEx } [128]).hopLimit = 255 ∧
    (icmp6SendPacketFrame { mac := [1, 2, 3, 4, 5, 6], ip := llaHostEx }
        { mac := [9, 9, 9, 9, 9, 9], ip := llaPeerEx } [128]).hopLimit = 1 := by
  have h := c8_sendpacket_hoplimit [1, 2, 3, 4, 5, 6]
    { mac := [1, 2, 3, 4, 5, 6], ip := llaHostEx }
    { mac := [9, 9, 9, 9, 9, 9], ip := llaPeerEx } [128] rfl
  refine ⟨?_, ?_⟩
  · rw [h.1]; decide
  · rw [h.2]; decide

/-- C8 (counterexample): for a non-link-local destination both hop limits
are 64, yet the built frames differ: the icmp variant stamps the session
host MAC as Ethernet source while the icmp6 variant stamps the caller's
source MAC, refuting that the two differ only in the hop limit. -/
theorem c8_sendpacket_counterexample :
    (icmpSendPacketFrame [2, 2, 2, 2, 2, 2] { mac := [1, 1, 1, 1, 1, 1], ip := guaEx }
        { mac := [3, 3, 3, 3, 3, 3], ip := guaEx2 } [0]).hopLimit =
      (icmp6SendPacketFrame { mac := [1, 1, 1, 1, 1, 1], ip := guaEx }
        { mac := [3, 3, 3, 3, 3, 3], ip := guaEx2 } [0]).hopLimit ∧
    icmpSendPacketFrame [2, 2, 2, 2, 2, 2] { mac := [1, 1, 1, 1, 1, 1], ip := guaEx }
        { mac := [3, 3, 3, 3, 3, 3], ip := guaEx2 } [0] ≠
      icmp6SendPacketFrame { mac := [1, 1, 1, 1, 1, 1], ip := guaEx }
        { mac := [3, 3, 3, 3, 3, 3], ip := guaEx2 } [0] := by decide

end PacketProof


namespace PacketProof

/-! Theorems for claim C10: Session.Capture. -/

/-- Searching an appended list when the first part has no match. -/
theorem macFind_append_none (p : MacEnt → Bool) (t l : List MacEnt)
    (h : t.find? p = none) : (t ++ l).find? p = l.find? p := by
  induction t with
  | nil => rfl
  | cons a t ih =>
    cases hpa : p a with
    | true =>
      rw [List.find?_cons_of_pos _ hpa] at h
      cases h
    | false =>
      rw [List.find?_cons_of_neg _ (by simp [hpa])] at h
      rw [List.cons_append, List.find?_cons_of_neg _ (by simp [hpa])]
      exact ih h

/-- The entry returned by macFindOrCreate carries the requested MAC. -/
theorem macFindOrCreate_mac (t : List MacEnt) (m : List Nat) :
    (macFindOrCreate t m).1.mac = m := by
  unfold macFindOrCreate
  cases hf : t.find? (fun e => decide (e.mac = m)) with
  | some e =>
    have he := List.find?_some hf
    simpa using he
  | none => simp

/-- Looking the MAC up in the table produced by macFindOrCreate yields the
returned entry. -/
theorem macLookup_findOrCreate (t : List MacEnt) (m : List Nat) :
    macLookup (macFindOrCreate t m).2 m = some (macFindOrCreate t m).1 := by
  unfold macLookup macFindOrCreate
  cases hf : t.find? (fun e => decide (e.mac = m)) with
  | some e => simpa using hf
  | none =>
    simp only
    rw [macFind_append_none _ t _ hf]
    simp [List.find?]

/-- Setting the Captured flag of the entry keyed by a MAC commutes with the
lookup of that MAC. -/
theorem macLookup_setCaptured (t : List MacEnt) (m : List Nat) :
    macLookup (t.map fun x => if x.mac = m then { x with captured := true } else x) m =
      (macLookup t m).map fun x => { x with captured := true } := by
  induction t with
  | nil => rfl
  | cons a t ih =>
    by_cases h : a.mac = m
    · simp [macLookup, List.find?_cons, h]
    · simpa [macLookup, List.find?_cons, h] using ih

/-- C10: Session.Capture returns nil and leaves the table unchanged whenever
the entry is already Captured, including when its IsRouter flag is set;
ErrIsRouter is returned exactly when the entry is not captured and IsRouter
is set; and whenever nil is returned the entry for the MAC is Captured in
the resulting table. -/
theorem c10_session_capture (t : List MacEnt) (m : List Nat) :
    ((macFindOrCreate t m).1.captured = true →
      sessionCapture t m = (none, (macFindOrCreate t m).2)) ∧
    ((sessionCapture t m).1 = some CaptureErr.isRouter ↔
      (macFindOrCreate t m).1.captured = false ∧ (macFindOrCreate t m).1.isRouter = true) ∧
    ((sessionCapture t m).1 = none →
      (macLookup (sessionCapture t m).2 m).map MacEnt.captured = some true) := by
  have hsc : sessionCapture t m =
      (if (macFindOrCreate t m).1.captured = true then
        ((none : Option CaptureErr), (macFindOrCreate t m).2)
      else if (macFindOrCreate t m).1.isRouter = true then
        (some CaptureErr.isRouter, (macFindOrCreate t m).2)
      else
        (none, (macFindOrCreate t m).2.map fun x =>
          if x.mac = (macFindOrCreate t m).1.mac then { x with captured := true } else x)) := rfl
  rw [hsc]
  cases hc : (macFindOrCreate t m).1.captured with
  | true =>
    simp only [hc, if_true]
    refine ⟨fun _ => by simp, by simp, ?_⟩
    intro _
    rw [macLookup_findOrCreate]
    simp [hc]
  | false =>
    cases hr : (macFindOrCreate t m).1.isRouter with
    | true =>
      simp only [hc, hr, Bool.false_eq_true, if_false, if_true]
      exact ⟨fun hcap => by simp at hcap, by simp, fun hnone => by simp at hnone⟩
    | false =>
      simp only [hc, hr, Bool.false_eq_true, if_false]
      refine ⟨fun hcap => by simp at hcap, by simp, ?_⟩
      intro _
      rw [macFindOrCreate_mac, macLookup_setCaptured, macLookup_findOrCreate]
      simp

/-- C10 (witness): the theorem applied to a table holding a captured router
entry: Capture returns nil, leaves the table unchanged, and the entry stays
captured. -/
theorem c10_session_capture_witness :
    sessionCapture [{ mac := [1, 2, 3, 4, 5, 6], captured := true, isRouter := true }] [1, 2, 3, 4, 5, 6] =
      (none, [{ mac := [1, 2, 3, 4, 5, 6], captured := true, isRouter := true }]) ∧
    (macLookup (sessionCapture [{ mac := [1, 2, 3, 4, 5, 6], captured := true, isRouter := true }]
        [1, 2, 3, 4, 5, 6]).2 [1, 2, 3, 4, 5, 6]).map MacEnt.captured = some true := by
  have h := c10_session_capture
    [{ mac := [1, 2, 3, 4, 5, 6], captured := true, isRouter := true }] [1, 2, 3, 4, 5, 6]
  refine ⟨?_, ?_⟩
  · exact h.1 (by decide)
  · exact h.2.2 (by rw [h.1 (by decide)])

end PacketProof

namespace PacketProof

/-! Theorems for claims C9, C3 and C2: handleRequest. -/

/-- C9: when the RequestedIPAddress option is absent or resolves to zero and
the CIAddr is zero, the resolved request IP is zero under every
classification, so handleRequest returns no reply frame, leaves the lease
table untouched and dispatches no forged packet. -/
theorem c9_zero_request_drop (h : DhcpHandler) (table : List Lease)
    (hostPresent captured : Bool) (p : DHCP4Req) (opts : ReqOptions)
    (senderIP : GoIP) (now : Int)
    (hopt : ipEqual (optionIP opts.requestedIP) IPv4zero = true)
    (hci : ipEqual p.ciaddr IPv4zero = true) :
    (handleRequest h table hostPresent captured p opts senderIP now).reply = none ∧
    (handleRequest h table hostPresent captured p opts senderIP now).table = table ∧
    (handleRequest h table hostPresent captured p opts senderIP now).declines = [] := by
  have hreq : ipEqual (requestClassify (optionIP opts.serverID) (optionIP opts.requestedIP)
      senderIP p.ciaddr).2 IPv4zero = true := by
    unfold requestClassify
    cases hs : ipEqual (optionIP opts.serverID) IPv4zero <;>
      cases hb : ipEqual senderIP IPv4bcast <;>
        simp [hs, hb, hopt, hci]
  unfold handleRequest
  simp [hreq]

/-- C9 (witness): a REQUEST with no RequestedIP option and a zero CIAddr is
silently dropped. -/
theorem c9_zero_request_drop_witness :
    (handleRequest handlerEx [] false false
        { chaddr := [0, 2, 3, 4, 5, 1], ciaddr := [0, 0, 0, 0], xid := [1, 1, 1, 1], broadcast := true }
        {} [0, 0, 0, 0] 0).reply = none ∧
    (handleRequest handlerEx [] false false
        { chaddr := [0, 2, 3, 4, 5, 1], ciaddr := [0, 0, 0, 0], xid := [1, 1, 1, 1], broadcast := true }
        {} [0, 0, 0, 0] 0).table = [] ∧
    (handleRequest handlerEx [] false false
        { chaddr := [0, 2, 3, 4, 5, 1], ciaddr := [0, 0, 0, 0], xid := [1, 1, 1, 1], broadcast := true }
        {} [0, 0, 0, 0] 0).declines = [] :=
  c9_zero_request_drop handlerEx [] false false
    { chaddr := [0, 2, 3, 4, 5, 1], ciaddr := [0, 0, 0, 0], xid := [1, 1, 1, 1], broadcast := true }
    {} [0, 0, 0, 0] 0 (by decide) (by decide)

/-- C3 (amended): for a REQUEST classified Rebooting or Rebinding with a
non-zero resolved request IP, a lease in state Free, and the adversarial
condition (SecondaryServer mode, or SecondaryServerNice with the MAC
captured), handleRequest dispatches a forged DECLINE to the home gateway
net1.DefaultGW carrying the same request IP, and returns a NAK whose
ServerIdentifier is net1.DefaultGW — the home gateway, not the handler's
own DHCPServer address as the claim stated. -/
theorem c3_rebind_free_adversarial (h : DhcpHandler) (table : List Lease)
    (hostPresent captured : Bool) (p : DHCP4Req) (opts : ReqOptions)
    (senderIP : GoIP) (now : Int) (reqIP : GoIP)
    (hop : requestClassify (optionIP opts.serverID) (optionIP opts.requestedIP)
        senderIP p.ciaddr = (ReqOperation.rebooting, reqIP) ∨
      requestClassify (optionIP opts.serverID) (optionIP opts.requestedIP)
        senderIP p.ciaddr = (ReqOperation.rebinding, reqIP))
    (hreq : ipEqual reqIP IPv4zero = false)
    (hfree : (leaseFindOrCreate table (getClientID p opts) p.chaddr
        ((opts.hostName).getD []) captured).1.state = LeaseState.free)
    (hadv : dhcpAdversarial h.mode captured = true) :
    (handleRequest h table hostPresent captured p opts senderIP now).reply =
      some (replyPacket p MsgType.nak h.net1.defaultGW IPv4zero 0 none) ∧
    (handleRequest h table hostPresent captured p opts senderIP now).declines =
      [{ clientID := getClientID p opts, serverID := h.net1.defaultGW,
         mac := p.chaddr, ip := reqIP, xid := p.xid }] := by
  unfold handleRequest
  rcases hop with hcl | hcl <;> simp [hcl, hreq, hfree, hadv]

/-- C3 (witness): scenario S2 — SecondaryServerNice mode, captured MAC,
broadcast REQUEST for 192.168.0.50 with no ServerIdentifier, empty lease
table: a NAK from 192.168.0.11 (the home gateway) and one forged DECLINE
carrying 192.168.0.50. -/
theorem c3_rebind_free_adversarial_witness :
    (handleRequest handlerEx [] false true
        { chaddr := [0, 2, 3, 4, 5, 2], ciaddr := [0, 0, 0, 0], xid := [2, 2, 2, 2], broadcast := true }
        { requestedIP := some [192, 168, 0, 50] } [255, 255, 255, 255] 0).reply =
      some (replyPacket
        { chaddr := [0, 2, 3, 4, 5, 2], ciaddr := [0, 0, 0, 0], xid := [2, 2, 2, 2], broadcast := true }
        MsgType.nak handlerEx.net1.defaultGW IPv4zero 0 none) ∧
    (handleRequest handlerEx [] false true
        { chaddr := [0, 2, 3, 4, 5, 2], ciaddr := [0, 0, 0, 0], xid := [2, 2, 2, 2], broadcast := true }
        { requestedIP := some [192, 168, 0, 50] } [255, 255, 255, 255] 0).declines =
      [{ clientID := [0, 2, 3, 4, 5, 2], serverID := handlerEx.net1.defaultGW,
         mac := [0, 2, 3, 4, 5, 2], ip := [192, 168, 0, 50], xid := [2, 2, 2, 2] }] :=
  c3_rebind_free_adversarial handlerEx [] false true
    { chaddr := [0, 2, 3, 4, 5, 2], ciaddr := [0, 0, 0, 0], xid := [2, 2, 2, 2], broadcast := true }
    { requestedIP := some [192, 168, 0, 50] } [255, 255, 255, 255] 0 [192, 168, 0, 50]
    (Or.inl (by decide)) (by decide) (by decide) (by decide)

/-- C3 (counterexample): in that same scenario the NAK's ServerIdentifier is
192.168.0.11, the home gateway, which is not the handler's DHCPServer
address (192.168.0.129) on either subnet; the claim's statement that the
NAK carries the handler's own DHCPServer address is false. -/
theorem c3_nak_server_counterexample :
    ((handleRequest handlerEx [] false true
        { chaddr := [0, 2, 3, 4, 5, 2], ciaddr := [0, 0, 0, 0], xid := [2, 2, 2, 2], broadcast := true }
        { requestedIP := some [192, 168, 0, 50] } [255, 255, 255, 255] 0).reply).map Reply.serverID =
      some [192, 168, 0, 11] ∧
    [(192 : Nat), 168, 0, 11] ≠ subnetHomeEx.dhcpServer ∧
    [(192 : Nat), 168, 0, 11] ≠ subnetNetfilterEx.dhcpServer ∧
    ((handleRequest handlerEx [] false true
        { chaddr := [0, 2, 3, 4, 5, 2], ciaddr := [0, 0, 0, 0], xid := [2, 2, 2, 2], broadcast := true }
        { requestedIP := some [192, 168, 0, 50] } [255, 255, 255, 255] 0).declines).map
      ForcedDecline.ip = [[192, 168, 0, 50]] := by decide

end PacketProof

namespace PacketProof

/-! Theorems for claim C2: the Selecting branch addressed to this server. -/

/-- C2 (amended): for a Selecting REQUEST (ServerIdentifier resolves
non-zero) with a non-zero resolved RequestedIP whose ServerIdentifier equals
the selected subnet's DHCPServer, handleRequest returns an ACK whenever the
lease MAC equals the frame CHAddr and the lease, if in state Discover, has
matching XID and IPOffer, and, if in state Allocated, has matching address —
in particular a lease in state Free is ACKed on a MAC match alone, which the
original claim excluded; in every other case the reply is a NAK with
ServerIdentifier = subnet.DHCPServer. -/
theorem c2_selecting_own_server (h : DhcpHandler) (table : List Lease)
    (hostPresent captured : Bool) (p : DHCP4Req) (opts : ReqOptions)
    (senderIP : GoIP) (now : Int)
    (hsel : ipEqual (optionIP opts.serverID) IPv4zero = false)
    (hreq : ipEqual (optionIP opts.requestedIP) IPv4zero = false)
    (hown : ipEqual (optionIP opts.serverID)
      (if captured = true then h.net2 else h.net1).dhcpServer = true) :
    ∀ lease : Lease,
      lease = (leaseFindOrCreate table (getClientID p opts) p.chaddr
        ((opts.hostName).getD []) captured).1 →
      ((lease.mac = p.chaddr ∧
          (lease.state = LeaseState.discover →
            lease.xid = p.xid ∧ ipEqual lease.ipOffer (optionIP opts.requestedIP) = true) ∧
          (lease.state = LeaseState.allocated →
            ipEqual lease.ip (optionIP opts.requestedIP) = true)) →
        ∃ r, (handleRequest h table hostPresent captured p opts senderIP now).reply = some r ∧
          r.mt = MsgType.ack) ∧
      (¬ (lease.mac = p.chaddr ∧
          (lease.state = LeaseState.discover →
            lease.xid = p.xid ∧ ipEqual lease.ipOffer (optionIP opts.requestedIP) = true) ∧
          (lease.state = LeaseState.allocated →
            ipEqual lease.ip (optionIP opts.requestedIP) = true)) →
        (handleRequest h table hostPresent captured p opts senderIP now).reply =
          some (replyPacket p MsgType.nak
            (if captured = true then h.net2 else h.net1).dhcpServer IPv4zero 0 none)) := by
  intro lease hlease
  have hcl : requestClassify (optionIP opts.serverID) (optionIP opts.requestedIP)
      senderIP p.ciaddr = (ReqOperation.selecting, optionIP opts.requestedIP) := by
    unfold requestClassify
    simp [hsel]
  have hiff : (lease.mac = p.chaddr ∧
      (lease.state = LeaseState.discover →
        lease.xid = p.xid ∧ ipEqual lease.ipOffer (optionIP opts.requestedIP) = true) ∧
      (lease.state = LeaseState.allocated →
        ipEqual lease.ip (optionIP opts.requestedIP) = true)) ↔
    ¬ (lease.mac ≠ p.chaddr ∨
      (lease.state = LeaseState.discover ∧
        (lease.xid ≠ p.xid ∨ ipEqual lease.ipOffer (optionIP opts.requestedIP) = false)) ∨
      (lease.state = LeaseState.allocated ∧
        ipEqual lease.ip (optionIP opts.requestedIP) = false)) := by
    simp only [Bool.eq_false_iff]
    tauto
  constructor
  · intro hvalid
    have hngo := hiff.mp hvalid
    rw [hlease] at hngo
    unfold handleRequest
    simp only [hcl, hreq, hown]
    simp [hreq, hngo, handleRequestSuccess, replyPacket]
  · intro hnvalid
    have hgo : lease.mac ≠ p.chaddr ∨
        (lease.state = LeaseState.discover ∧
          (lease.xid ≠ p.xid ∨ ipEqual lease.ipOffer (optionIP opts.requestedIP) = false)) ∨
        (lease.state = LeaseState.allocated ∧
          ipEqual lease.ip (optionIP opts.requestedIP) = false) := by
      by_contra hngo
      exact hnvalid (hiff.mpr hngo)
    rw [hlease] at hgo
    unfold handleRequest
    simp only [hcl, hreq, hown]
    simp [hreq, hgo]

end PacketProof

namespace PacketProof

/-- C2 (witness): an Allocated lease for 192.168.0.50 with matching MAC,
ServerIdentifier 192.168.0.129 equal to the home subnet's DHCPServer:
the reply is an ACK. -/
theorem c2_selecting_own_server_witness :
    ∃ r, (handleRequest handlerEx
        [{ clientID := [0, 2, 3, 4, 5, 1], mac := [0, 2, 3, 4, 5, 1], ip := [192, 168, 0, 50],
           xid := [1, 1, 1, 1], ipOffer := [], state := LeaseState.allocated, expiry := 100 }]
        false false
        { chaddr := [0, 2, 3, 4, 5, 1], ciaddr := [0, 0, 0, 0], xid := [1, 1, 1, 1], broadcast := false }
        { requestedIP := some [192, 168, 0, 50], serverID := some [192, 168, 0, 129] }
        [192, 168, 0, 50] 0).reply = some r ∧ r.mt = MsgType.ack :=
  (c2_selecting_own_server handlerEx
    [{ clientID := [0, 2, 3, 4, 5, 1], mac := [0, 2, 3, 4, 5, 1], ip := [192, 168, 0, 50],
       xid := [1, 1, 1, 1], ipOffer := [], state := LeaseState.allocated, expiry := 100 }]
    false false
    { chaddr := [0, 2, 3, 4, 5, 1], ciaddr := [0, 0, 0, 0], xid := [1, 1, 1, 1], broadcast := false }
    { requestedIP := some [192, 168, 0, 50], serverID := some [192, 168, 0, 129] }
    [192, 168, 0, 50] 0 (by decide) (by decide) (by decide)
    { clientID := [0, 2, 3, 4, 5, 1], mac := [0, 2, 3, 4, 5, 1], ip := [192, 168, 0, 50],
      xid := [1, 1, 1, 1], ipOffer := [], state := LeaseState.allocated, expiry := 100 }
    (by decide)).1 (by decide)

/-- C2 (counterexample): a lease in state Free whose MAC matches the client
is ACKed by the code, although the claim allows an ACK only for a matching
Discover or Allocated lease. -/
theorem c2_free_lease_ack_counterexample :
    ((handleRequest handlerEx [leaseFreeEx] false false
        { chaddr := [0, 2, 3, 4, 5, 1], ciaddr := [0, 0, 0, 0], xid := [1, 1, 1, 1], broadcast := false }
        { requestedIP := some [192, 168, 0, 50], serverID := some [192, 168, 0, 129] }
        [192, 168, 0, 50] 0).reply).map Reply.mt = some MsgType.ack ∧
    ¬ specC2AckCond leaseFreeEx
        { chaddr := [0, 2, 3, 4, 5, 1], ciaddr := [0, 0, 0, 0], xid := [1, 1, 1, 1], broadcast := false }
        (ipTo4 [192, 168, 0, 50]) := by decide

end PacketProof
